import Mathlib

/-!
Verification development for the wasm-split example application
(`src/crates/example/src/lib.rs`): a shallow embedding of the route
registrations, the lazy-route data/view implementations, and the
lazy-route resolution protocol described by the specification.

The application code itself (route registrations, `LazyRoute::data`
and `LazyRoute::view` bodies, `deserialize_comments`) is translated
from the source.  The collaborators the source delegates to — the
router's path matcher, the Suspense boundary rule, the navigation
dispatch, the HTTP client, serde, and Rust's derived Debug formatter —
are not part of this repository's `src/`; where needed they are
modelled from the spec and marked as such.
-/

namespace WasmSplitExample

/-- The four route components registered in `main` (lines 41-45 of the source). -/
inductive RouteId
  | viewA
  | viewB
  | viewBChild
  | viewC
  deriving DecidableEq

/-- Identifiers of the lazily loaded split modules named in the source:
`wasm_split(view_b)`, `wasm_split(view_b_child)`, `wasm_split(view_c)` and
`wasm_split(deserialize_comments)`. -/
inductive ModuleId
  | view_b
  | view_b_child
  | view_c
  | deserialize_comments_mod
  deriving DecidableEq

/-- A static path segment, as written with `StaticSegment(...)` in `main`. -/
inductive Seg
  | staticSeg (s : String)
  deriving DecidableEq

/-- A child route registration (a `Route` nested under a `ParentRoute`). -/
structure ChildRoute where
  segs : List Seg
  id : RouteId
  deriving DecidableEq

/-- A top-level registration inside `Routes`: either a plain `Route` or a
`ParentRoute` with children. -/
inductive TopRoute
  | route (segs : List Seg) (id : RouteId)
  | parentRoute (segs : List Seg) (id : RouteId) (children : List ChildRoute)
  deriving DecidableEq

/-- The path pattern a top-level registration was registered at. -/
def topSegs : TopRoute → List Seg
  | .route segs _ => segs
  | .parentRoute segs _ _ => segs

/-- Modelled from the spec: the router collaborator's segment matcher
(section 4.1); the router itself is not part of this repository's `src/`.
`StaticSegment("")` consumes no path segment; any other static segment
consumes exactly one equal segment.  Returns the unconsumed remainder. -/
def matchSegs : List Seg → List String → Option (List String)
  | [], p => some p
  | .staticSeg s :: ss, p =>
    if s = "" then matchSegs ss p
    else
      match p with
      | [] => none
      | x :: xs => if s = x then matchSegs ss xs else none

/-- Modelled from the spec: a child route matches when it consumes the whole
remainder of the path. -/
def matchChildRoute (c : ChildRoute) (path : List String) : Option RouteId :=
  match matchSegs c.segs path with
  | some rest => if rest = [] then some c.id else none
  | none => none

/-- Modelled from the spec: children are tried in registration order. -/
def firstChildMatch : List ChildRoute → List String → Option RouteId
  | [], _ => none
  | c :: cs, p =>
    match matchChildRoute c p with
    | some i => some i
    | none => firstChildMatch cs p

/-- Modelled from the spec: a plain route matches when it consumes the whole
path; a parent route matches only when one of its children consumes the
remainder, yielding the parent/child chain. -/
def matchTop : TopRoute → List String → Option (List RouteId)
  | .route segs i, p =>
    match matchSegs segs p with
    | some rest => if rest = [] then some [i] else none
    | none => none
  | .parentRoute segs i cs, p =>
    match matchSegs segs p with
    | some rest =>
      match firstChildMatch cs rest with
      | some ci => some [i, ci]
      | none => none
    | none => none

/-- Modelled from the spec: `resolve(path)` tries the top-level registrations
in registration order and returns the active chain of the first match
(section 4.1), or `none` so the caller renders the fallback. -/
def resolve : List TopRoute → List String → Option (List RouteId)
  | [], _ => none
  | t :: ts, p =>
    match matchTop t p with
    | some c => some c
    | none => resolve ts p

/-- Registration `<Route path=StaticSegment("") view=ViewA/>` (source line 41). -/
def viewARoute : TopRoute := .route [.staticSeg ""] .viewA

/-- Registration `<ParentRoute path=StaticSegment("") view=Lazy::<ViewB>>`
with child `<Route path=StaticSegment("b") view=Lazy::<ViewBChild>/>`
(source lines 42-44). -/
def parentBRoute : TopRoute :=
  .parentRoute [.staticSeg ""] .viewB [⟨[.staticSeg "b"], .viewBChild⟩]

/-- Registration `<Route path=StaticSegment("c") view=Lazy::<ViewC>/>`
(source line 45). -/
def viewCRoute : TopRoute := .route [.staticSeg "c"] .viewC

/-- The route tree registered in `main`, in registration order. -/
def appRoutes : List TopRoute := [viewARoute, parentBRoute, viewCRoute]

/-- The same registrations with `ViewA` and the `ViewB` parent swapped, used
to test whether registration order decides any match. -/
def appRoutesSwapped : List TopRoute := [parentBRoute, viewARoute, viewCRoute]

/-- Outcome of running a (possibly panicking) computation: the source code
unwraps its `Result`s, so besides a value it can panic; `failed` is the
spec's error-value channel, which the source never produces. -/
inductive RunOutcome (α : Type)
  | ok (a : α)
  | failed (e : String)
  | panicked (m : String)
  deriving DecidableEq

/-- Map over the success value of an outcome. -/
def RunOutcome.map (f : α → β) : RunOutcome α → RunOutcome β
  | .ok a => .ok (f a)
  | .failed e => .failed e
  | .panicked m => .panicked m

/-- Whether an outcome is an error surfaced as a value (the spec's `Failed`). -/
def RunOutcome.isFailed : RunOutcome α → Bool
  | .failed _ => true
  | _ => false

/-- Result of one HTTP request as the external `gloo_net` collaborator reports
it: the send can fail, reading the body text can fail, or the body arrives. -/
inductive HttpOutcome
  | sendError (e : String)
  | textError (e : String)
  | body (s : String)
  deriving DecidableEq

/-- The HTTP collaborator as an oracle from request URL to outcome. -/
def HttpEnv := String → HttpOutcome

/-- Embeds the source's `send().await.unwrap().text().await.unwrap()` chain on
one HTTP outcome: both unwraps turn an error into a panic. -/
def textOutcome : HttpOutcome → RunOutcome String
  | .sendError e => .panicked e
  | .textError e => .panicked e
  | .body s => .ok s

/-- Embeds `Request::get(url).send().await.unwrap().text().await.unwrap()`. -/
def httpGetText (http : HttpEnv) (url : String) : RunOutcome String :=
  textOutcome (http url)

/-- The `Comment` record deserialized in View C (source lines 133-141). -/
structure Comment where
  post_id : Nat
  id : Nat
  name : String
  email : String
  body : String
  deriving DecidableEq

/-- The external serde collaborator: `serde_json::from_str` specialised to
`Vec<Comment>`, passed in as a function (it is not part of this repository). -/
def FromStr := String → Except String (List Comment)

/-- Embeds `fn deserialize_comments(data: &str) -> Vec<Comment> {
serde_json::from_str(data).unwrap() }` (source lines 143-146): the
`.unwrap()` turns a parse error into a panic, not into an error value. -/
def deserialize_comments (from_str : FromStr) (data : String) : RunOutcome (List Comment) :=
  match from_str data with
  | .ok v => .ok v
  | .error e => .panicked e

/-- The URL fetched by `ViewBChild::data` (source line 102). -/
def todosUrl : String := "https://jsonplaceholder.typicode.com/todos/1"

/-- The URL fetched by `ViewC::data` (source line 158). -/
def commentsUrl : String := "https://jsonplaceholder.typicode.com/comments"

/-- The async block inside `ViewBChild::data` (source lines 101-109): fetch
the todo text, unwrapping both fallible steps. -/
def viewBChildFuture (http : HttpEnv) : RunOutcome String :=
  httpGetText http todosUrl

/-- The tail of the async block inside `ViewC::data` applied to one HTTP
outcome: read the text (unwrapping) and then run `deserialize_comments`. -/
def viewCFutureOutcome (o : HttpOutcome) (from_str : FromStr) : RunOutcome (List Comment) :=
  match textOutcome o with
  | .ok data => deserialize_comments from_str data
  | .failed e => .failed e
  | .panicked m => .panicked m

/-- The async block inside `ViewC::data` (source lines 156-166). -/
def viewCFuture (http : HttpEnv) (from_str : FromStr) : RunOutcome (List Comment) :=
  viewCFutureOutcome (http commentsUrl) from_str

/-- The route data struct of View B: the unit struct `ViewB` (source line 64). -/
structure ViewB

/-- The route data struct of View B's child: holds the `AsyncDerived<String>`
handle, embedded as the closure the handle runs (source lines 93-96). -/
structure ViewBChild where
  data : HttpEnv → RunOutcome String

/-- The route data struct of View C: holds the `AsyncDerived<Vec<Comment>>`
handle, embedded as the closure the handle runs (source lines 148-151). -/
structure ViewC where
  data : HttpEnv → FromStr → RunOutcome (List Comment)

/-- A tiny effect language for the bodies of `LazyRoute::data` and
`LazyRoute::view`: a computation either returns a value, or awaits the load
of a wasm-split module and continues. -/
inductive Prog (α : Type)
  | ret (a : α)
  | awaitModuleLoad (m : ModuleId) (k : Prog α)

/-- Run a program to its value, with every module load succeeding. -/
def runProg : Prog α → α
  | .ret a => a
  | .awaitModuleLoad _ k => runProg k

/-- A program is synchronous when it returns without awaiting anything. -/
def isSync (p : Prog α) : Prop := ∃ a, p = .ret a

/-- A program never awaits a module load. -/
def noModuleAwait (p : Prog α) : Prop := ∀ m k, p ≠ .awaitModuleLoad m k

/-- Embeds `impl LazyRoute for ViewB { fn data() -> Self { Self } }`
(source lines 73-75). -/
def ViewB_data : Prog ViewB := .ret ⟨⟩

/-- Embeds `ViewBChild::data` (source lines 99-111): synchronously builds the
struct, embedding the fetch as an `AsyncDerived` closure, awaiting nothing. -/
def ViewBChild_data : Prog ViewBChild := .ret ⟨viewBChildFuture⟩

/-- Embeds `ViewC::data` (source lines 154-168): synchronously builds the
struct, embedding the fetch-then-deserialize pipeline as an `AsyncDerived`
closure, awaiting nothing. -/
def ViewC_data : Prog ViewC := .ret ⟨viewCFuture⟩

/-- Rendered content: text, elements, fragments, plus the Suspense error
state of the spec and a trap standing for an uncaught panic in wasm. -/
inductive Rendered
  | text (s : String)
  | elem (tag : String) (children : List Rendered)
  | fragment (children : List Rendered)
  | errorState (e : String)
  | trap (m : String)

/-- Whether a rendered node is the Suspense error state. -/
def Rendered.isErrorState : Rendered → Bool
  | .errorState _ => true
  | _ => false

/-- Whether a rendered node is an uncaught panic. -/
def Rendered.isTrap : Rendered → Bool
  | .trap _ => true
  | _ => false

/-- The state of a deferred value as seen at render time: still pending, or
resolved to the outcome of its computation. -/
inductive Deferred (α : Type)
  | pending
  | resolved (o : RunOutcome α)

/-- Map over the eventual success value of a deferred value. -/
def Deferred.map (f : α → β) : Deferred α → Deferred β
  | .pending => .pending
  | .resolved o => .resolved (o.map f)

/-- Modelled from the spec: the Suspense boundary rule of section 4.4 (the
boundary itself is the rendering collaborator, not in `src/`): fallback
while pending, content once ready, error state on a failed value.  A panic
inside the suspended computation is not an error value and is not caught by
the boundary; it is modelled as a trap. -/
def renderSuspense (fallback : Rendered) (content : Deferred Rendered) : Rendered :=
  match content with
  | .pending => fallback
  | .resolved (.ok r) => r
  | .resolved (.failed e) => .errorState e
  | .resolved (.panicked m) => .trap m

/-- The markup of `ViewA` (source lines 56-59): `<p>"View A"</p>`. -/
def ViewA_view : Rendered := .elem "p" [.text "View A"]

/-- The markup of the inner `view` of `ViewB` (source lines 80-87):
`<p>"View B"</p><hr/><Outlet/>`. -/
def ViewB_body (outlet : Rendered) : Rendered :=
  .fragment [.elem "p" [.text "View B"], .elem "hr" [], outlet]

/-- The markup of the inner `view` of `ViewBChild` (source lines 117-125):
a static paragraph and a Suspense region showing `<pre>` of the fetched
text, rendered as a function of the deferred data's current state. -/
def ViewBChild_body (st : Deferred String) : Rendered :=
  .fragment [.elem "p" [.text "Nested Child"],
    renderSuspense (.text "Loading...")
      (st.map fun s => .elem "pre" [.text s])]

/-- Escape a character the way Rust's Debug formatting of strings does for
quotes and backslashes. -/
def escapeDebug (s : String) : String :=
  s.foldl
    (fun acc c =>
      acc ++ (if c = '\\' then "\\\\" else if c = '"' then "\\\"" else String.singleton c))
    ""

/-- One element of Rust's derived pretty Debug output for a `Comment`, as
produced inside a `Vec` by `format!("\x7b:#?\x7d", ...)`.  Rust's derive(Debug)
is external standard-library behaviour, modelled here executably. -/
def debugFmtComment (c : Comment) : String :=
  "    Comment \x7b\n        post_id: " ++ toString c.post_id
    ++ ",\n        id: " ++ toString c.id
    ++ ",\n        name: \"" ++ escapeDebug c.name
    ++ "\",\n        email: \"" ++ escapeDebug c.email
    ++ "\",\n        body: \"" ++ escapeDebug c.body
    ++ "\",\n    \x7d,\n"

/-- Rust's derived pretty Debug output for a `Vec<Comment>`. -/
def debugFmtComments (cs : List Comment) : String :=
  if cs.isEmpty then "[]"
  else "[\n" ++ String.join (cs.map debugFmtComment) ++ "]"

/-- The markup of the inner `view` of `ViewC` (source lines 172-181): a
static paragraph and a Suspense region showing `<pre>` of the Debug-formatted
comment list. -/
def ViewC_body (st : Deferred (List Comment)) : Rendered :=
  .fragment [.elem "p" [.text "Nested Child"],
    renderSuspense (.text "Loading...")
      (st.map fun cs => .elem "pre" [.text (debugFmtComments cs)])]

/-- The `/b` page: `ViewB`'s markup with `ViewBChild`'s markup in its outlet. -/
def pageB (st : Deferred String) : Rendered :=
  ViewB_body (ViewBChild_body st)

/-- `ViewB::view` with the `split` feature: the body is wrapped by
`wasm_split(view_b)`, so running it first awaits that module's load
(source lines 78-90). -/
def ViewB_view_split (outlet : Rendered) : Prog Rendered :=
  .awaitModuleLoad .view_b (.ret (ViewB_body outlet))

/-- `ViewB::view` without the `split` feature: the body runs directly. -/
def ViewB_view_nosplit (outlet : Rendered) : Prog Rendered :=
  .ret (ViewB_body outlet)

/-- `ViewBChild::view` with the `split` feature (source lines 115-128). -/
def ViewBChild_view_split (st : Deferred String) : Prog Rendered :=
  .awaitModuleLoad .view_b_child (.ret (ViewBChild_body st))

/-- `ViewBChild::view` without the `split` feature. -/
def ViewBChild_view_nosplit (st : Deferred String) : Prog Rendered :=
  .ret (ViewBChild_body st)

/-- `ViewC::view` with the `split` feature (source lines 170-185). -/
def ViewC_view_split (st : Deferred (List Comment)) : Prog Rendered :=
  .awaitModuleLoad .view_c (.ret (ViewC_body st))

/-- `ViewC::view` without the `split` feature. -/
def ViewC_view_nosplit (st : Deferred (List Comment)) : Prog Rendered :=
  .ret (ViewC_body st)

/-- `deserialize_comments` with the `split` feature: the call first awaits
the `deserialize_comments` module's load, then runs the same body
(source line 143). -/
def deserialize_comments_split (f : FromStr) (s : String) : Prog (RunOutcome (List Comment)) :=
  .awaitModuleLoad .deserialize_comments_mod (.ret (deserialize_comments f s))

/-- State of one in-flight HTTP fetch. -/
inductive FetchState
  | inFlight
  | done (o : HttpOutcome)

/-- State of a lazily loaded module (spec section 3). -/
inductive ModuleState
  | unloaded
  | loading
  | loaded
  deriving DecidableEq

/-- The state of View C's data pipeline as a function of the fetch's state and
the deserializer module's state: with the `split` feature,
`deserialize_comments(&data).await` can only produce a value once its own
module has loaded, so the deferred value stays pending until both the fetch
and the deserializer module are done. -/
def viewCDataState (fs : FetchState) (ms : ModuleState) (from_str : FromStr) :
    Deferred (List Comment) :=
  match fs with
  | .inFlight => .pending
  | .done o =>
    match textOutcome o with
    | .failed e => .resolved (.failed e)
    | .panicked m => .resolved (.panicked m)
    | .ok s =>
      match ms with
      | .loaded => .resolved (deserialize_comments from_str s)
      | _ => .pending

/-- Which split module a route's view lives in; `ViewA` is eager (shipped in
the main bundle), the three `Lazy` routes each have one. -/
def moduleOf : RouteId → Option ModuleId
  | .viewA => none
  | .viewB => some .view_b
  | .viewBChild => some .view_b_child
  | .viewC => some .view_c

/-- Length of the longest common prefix of two chains. -/
def commonPrefixLen : List RouteId → List RouteId → Nat
  | [], _ => 0
  | _ :: _, [] => 0
  | a :: as, b :: bs => if a = b then commonPrefixLen as bs + 1 else 0

/-- The routes of the new chain that were not already active (spec 4.1). -/
def newlyEntered (oldC newC : List RouteId) : List RouteId :=
  newC.drop (commonPrefixLen oldC newC)

/-- The routes of the old chain that leave the active chain (spec 4.1). -/
def exitedRoutes (oldC newC : List RouteId) : List RouteId :=
  oldC.drop (commonPrefixLen oldC newC)

/-- Observable steps of one navigation dispatch. -/
inductive NavEvent
  | issueModuleLoad (m : ModuleId)
  | issueData (r : RouteId)
  | awaitResolution (r : RouteId)
  | exitDispose (r : RouteId)
  deriving DecidableEq

/-- Modelled from the spec: on entering, each newly matched lazy route has its
module load triggered and its `data()` called in the same synchronous turn
(spec section 5(a)); eager routes need neither. -/
def enterIssueEvents : List RouteId → List NavEvent
  | [] => []
  | r :: rs =>
    (match moduleOf r with
     | some m => [.issueModuleLoad m, .issueData r]
     | none => []) ++ enterIssueEvents rs

/-- The await points of the entered lazy routes, reached only after every
issue event of the same navigation. -/
def awaitEvents (entered : List RouteId) : List NavEvent :=
  (entered.filter fun r => (moduleOf r).isSome).map .awaitResolution

/-- Modelled from the spec: the event trace of one navigation dispatch
(sections 4.1 and 5): exited routes are disposed, then every newly entered
route's module load and `data()` call are issued, and only then does
anything suspend. -/
def navTrace (oldC newC : List RouteId) : List NavEvent :=
  (exitedRoutes oldC newC).map .exitDispose
    ++ enterIssueEvents (newlyEntered oldC newC)
    ++ awaitEvents (newlyEntered oldC newC)

/-- Whether an event issues work (a module load trigger or a `data()` call). -/
def isIssueEvt : NavEvent → Bool
  | .issueModuleLoad _ => true
  | .issueData _ => true
  | _ => false

/-- Whether an event is a suspension point. -/
def isAwaitEvt : NavEvent → Bool
  | .awaitResolution _ => true
  | _ => false

/-- Per-segment navigation state: which route, which `data()` generation
produced its RouteData, and how many module loads were issued for it. -/
structure SegState where
  route : RouteId
  dataGen : Nat
  moduleLoads : Nat
  deriving DecidableEq

/-- Modelled from the spec: the state update of one navigation (section 4.1):
segments in the shared prefix are kept untouched; the rest of the old chain
is torn down and the rest of the new chain is built fresh. -/
def navigateState (old : List SegState) (newC : List RouteId) (g : Nat) : List SegState :=
  let k := commonPrefixLen (old.map SegState.route) newC
  old.take k ++ (newC.drop k).map fun r => ⟨r, g, 1⟩

/-! Helper lemmas about the navigation model. -/

theorem take_len_append (l₁ l₂ : List α) : (l₁ ++ l₂).take l₁.length = l₁ := by
  induction l₁ with
  | nil => simp
  | cons a as ih => simp [ih]

theorem drop_len_append (l₁ l₂ : List α) : (l₁ ++ l₂).drop l₁.length = l₂ := by
  induction l₁ with
  | nil => simp
  | cons a as ih => simp [ih]

theorem commonPrefixLen_le_left :
    ∀ a b : List RouteId, commonPrefixLen a b ≤ a.length := by
  intro a
  induction a with
  | nil => intro b; simp [commonPrefixLen]
  | cons x xs ih =>
    intro b
    cases b with
    | nil => simp [commonPrefixLen]
    | cons y ys =>
      by_cases h : x = y
      · simpa [commonPrefixLen, h] using Nat.succ_le_succ (ih ys)
      · simp [commonPrefixLen, h]

theorem take_commonPrefix_eq :
    ∀ a b : List RouteId, a.take (commonPrefixLen a b) = b.take (commonPrefixLen a b) := by
  intro a
  induction a with
  | nil => intro b; cases b <;> simp [commonPrefixLen]
  | cons x xs ih =>
    intro b
    cases b with
    | nil => simp [commonPrefixLen]
    | cons y ys =>
      by_cases h : x = y
      · simp [commonPrefixLen, h, ih ys]
      · simp [commonPrefixLen, h]

theorem mem_enterIssueEvents_of_entered {l : List RouteId} {r : RouteId} {m : ModuleId}
    (hr : r ∈ l) (hm : moduleOf r = some m) :
    NavEvent.issueModuleLoad m ∈ enterIssueEvents l
      ∧ NavEvent.issueData r ∈ enterIssueEvents l := by
  induction l with
  | nil => cases hr
  | cons a as ih =>
    rcases List.mem_cons.mp hr with h | h
    · subst h
      refine ⟨?_, ?_⟩ <;> simp [enterIssueEvents, hm]
    · have h2 := ih h
      refine ⟨?_, ?_⟩ <;> simp only [enterIssueEvents, List.mem_append]
      · exact Or.inr h2.1
      · exact Or.inr h2.2

theorem enterIssueEvents_no_await {l : List RouteId} {e : NavEvent}
    (he : e ∈ enterIssueEvents l) : isAwaitEvt e = false := by
  induction l with
  | nil => simp [enterIssueEvents] at he
  | cons a as ih =>
    simp only [enterIssueEvents, List.mem_append] at he
    rcases he with h | h
    · cases hm : moduleOf a <;> rw [hm] at h <;> simp at h
      rcases h with h | h <;> subst h <;> rfl
    · exact ih h

theorem awaitEvents_no_issue {l : List RouteId} {e : NavEvent}
    (he : e ∈ awaitEvents l) : isIssueEvt e = false := by
  rcases List.mem_map.mp he with ⟨r, _, rfl⟩
  rfl

theorem issueData_mem_enterIssueEvents {l : List RouteId} {r : RouteId}
    (h : NavEvent.issueData r ∈ enterIssueEvents l) : r ∈ l := by
  induction l with
  | nil => simp [enterIssueEvents] at h
  | cons a as ih =>
    simp only [enterIssueEvents, List.mem_append] at h
    rcases h with h | h
    · cases hm : moduleOf a <;> rw [hm] at h
      · simp at h
      · simp at h
        simp_all
    · exact List.mem_cons_of_mem _ (ih h)

theorem issueLoad_mem_enterIssueEvents {l : List RouteId} {m : ModuleId}
    (h : NavEvent.issueModuleLoad m ∈ enterIssueEvents l) :
    ∃ r, r ∈ l ∧ moduleOf r = some m := by
  induction l with
  | nil => simp [enterIssueEvents] at h
  | cons a as ih =>
    simp only [enterIssueEvents, List.mem_append] at h
    rcases h with h | h
    · cases hm : moduleOf a <;> rw [hm] at h
      · simp at h
      · simp at h
        exact ⟨a, List.mem_cons_self a as, by simp_all⟩
    · rcases ih h with ⟨r, hr, hm⟩
      exact ⟨r, List.mem_cons_of_mem _ hr, hm⟩

theorem resolve_appRoutes_eq (p : List String) :
    resolve appRoutes p
      = if p = [] then some [RouteId.viewA]
        else if p = ["b"] then some [RouteId.viewB, RouteId.viewBChild]
        else if p = ["c"] then some [RouteId.viewC]
        else none := by
  rcases p with _ | ⟨x, _ | ⟨y, ys⟩⟩
  · decide
  · by_cases hb : x = "b"
    · subst hb; decide
    · by_cases hc : x = "c"
      · subst hc; decide
      · have hb2 : ¬ "b" = x := fun h => hb h.symm
        have hc2 : ¬ "c" = x := fun h => hc h.symm
        simp [resolve, appRoutes, viewARoute, parentBRoute, viewCRoute, matchTop,
          matchSegs, firstChildMatch, matchChildRoute, hb, hc, hb2, hc2]
  · by_cases hb : x = "b"
    · subst hb
      simp [resolve, appRoutes, viewARoute, parentBRoute, viewCRoute, matchTop,
        matchSegs, firstChildMatch, matchChildRoute]
    · by_cases hc : x = "c"
      · subst hc
        simp [resolve, appRoutes, viewARoute, parentBRoute, viewCRoute, matchTop,
          matchSegs, firstChildMatch, matchChildRoute]
      · have hb2 : ¬ "b" = x := fun h => hb h.symm
        have hc2 : ¬ "c" = x := fun h => hc h.symm
        simp [resolve, appRoutes, viewARoute, parentBRoute, viewCRoute, matchTop,
          matchSegs, firstChildMatch, matchChildRoute, hb, hc, hb2, hc2]

/-! Claim theorems. -/

/-- C7: resolving the path "/" produces the active chain `[ViewA]`, an eager
route with no split module and no `data()` call; its render immediately
yields the static content "View A". -/
theorem c7_root_renders_viewA_immediately :
    resolve appRoutes [] = some [RouteId.viewA]
      ∧ moduleOf RouteId.viewA = none
      ∧ enterIssueEvents [RouteId.viewA] = []
      ∧ ViewA_view = .elem "p" [.text "View A"] :=
  ⟨by decide, rfl, rfl, rfl⟩

/-- C4: every `LazyRoute` `data()` implementation in the file (`ViewB::data`,
`ViewBChild::data`, `ViewC::data`) returns its route data synchronously,
without awaiting anything — in particular never awaiting a view-module
load; the expensive work is only embedded as the deferred closures stored
inside the returned structs. -/
theorem c4_data_is_synchronous :
    isSync ViewB_data ∧ isSync ViewBChild_data ∧ isSync ViewC_data
      ∧ noModuleAwait ViewB_data ∧ noModuleAwait ViewBChild_data
      ∧ noModuleAwait ViewC_data := by
  refine ⟨⟨_, rfl⟩, ⟨_, rfl⟩, ⟨_, rfl⟩, ?_, ?_, ?_⟩ <;>
    · intro m k h
      simp [ViewB_data, ViewBChild_data, ViewC_data] at h

/-- C9: for every route view in the file and for `deserialize_comments`, the
`split` variant produced by the `wasm_split` attribute is exactly the
unsplit computation preceded by one module-load await, so the value it
produces for a given input is identical with the feature on or off. -/
theorem c9_split_preserves_values :
    (∀ outlet, ViewB_view_split outlet
          = .awaitModuleLoad .view_b (ViewB_view_nosplit outlet)
        ∧ runProg (ViewB_view_split outlet) = runProg (ViewB_view_nosplit outlet))
      ∧ (∀ st, ViewBChild_view_split st
          = .awaitModuleLoad .view_b_child (ViewBChild_view_nosplit st)
        ∧ runProg (ViewBChild_view_split st) = runProg (ViewBChild_view_nosplit st))
      ∧ (∀ st, ViewC_view_split st
          = .awaitModuleLoad .view_c (ViewC_view_nosplit st)
        ∧ runProg (ViewC_view_split st) = runProg (ViewC_view_nosplit st))
      ∧ (∀ f s, deserialize_comments_split f s
          = .awaitModuleLoad .deserialize_comments_mod (.ret (deserialize_comments f s))
        ∧ runProg (deserialize_comments_split f s) = deserialize_comments f s) :=
  ⟨fun _ => ⟨rfl, rfl⟩, fun _ => ⟨rfl, rfl⟩, fun _ => ⟨rfl, rfl⟩, fun _ _ => ⟨rfl, rfl⟩⟩

/-- C2 counterexample: at the concrete input where the HTTP send for
ViewBChild's data fails with "network error", the data future's outcome is
a panic (the source unwraps the error), not a `failed` error value, and the
Suspense region renders as an uncaught trap, not as an error state — so the
failure is not surfaced as an error state at the Suspense boundary. -/
theorem c2_cex_fetch_failure_is_panic_not_error_state :
    viewBChildFuture (fun _ => .sendError "network error") = .panicked "network error"
      ∧ RunOutcome.isFailed
          (viewBChildFuture (fun _ => .sendError "network error")) = false
      ∧ renderSuspense (.text "Loading...")
          (Deferred.map (fun s => Rendered.elem "pre" [.text s])
            (.resolved (viewBChildFuture (fun _ => .sendError "network error"))))
          = .trap "network error"
      ∧ Rendered.isErrorState (Rendered.trap "network error") = false :=
  ⟨rfl, rfl, rfl, rfl⟩

/-- C2 amended: when a data fetch embedded in `ViewBChild::data` or
`ViewC::data` fails, the async block unwraps the error, so the data future
panics instead of surfacing a Suspense error state; while the child's fetch
is pending or once it succeeds, ViewB's static "View B" content renders
normally around the child's Suspense region (fallback, then fetched text). -/
theorem c2_amended_fetch_failure_panics :
    (∀ e, viewBChildFuture (fun _ => .sendError e) = .panicked e)
      ∧ (∀ e from_str, viewCFuture (fun _ => .sendError e) from_str = .panicked e)
      ∧ (∀ m, renderSuspense (.text "Loading...")
            (Deferred.map (fun s => Rendered.elem "pre" [.text s])
              (.resolved (.panicked m))) = .trap m)
      ∧ (∀ m, Rendered.isErrorState
            (renderSuspense (.text "Loading...")
              (Deferred.map (fun s => Rendered.elem "pre" [.text s])
                (.resolved (.panicked m)))) = false)
      ∧ pageB .pending
          = .fragment [.elem "p" [.text "View B"], .elem "hr" [],
              .fragment [.elem "p" [.text "Nested Child"], .text "Loading..."]]
      ∧ (∀ s, pageB (.resolved (.ok s))
          = .fragment [.elem "p" [.text "View B"], .elem "hr" [],
              .fragment [.elem "p" [.text "Nested Child"], .elem "pre" [.text s]]]) :=
  ⟨fun _ => rfl, fun _ _ => rfl, fun _ => rfl, fun _ => rfl, rfl, fun _ => rfl⟩

/-- C3 counterexample: at a concrete input whose serde parse fails,
`deserialize_comments` panics (the source unwraps `serde_json::from_str`)
rather than returning or propagating an error value, so a deserialization
failure is not surfaced as a DeferredValue error. -/
theorem c3_cex_parse_failure_is_panic :
    deserialize_comments (fun _ => .error "expected value at line 1 column 1") ""
        = .panicked "expected value at line 1 column 1"
      ∧ RunOutcome.isFailed
          (deserialize_comments (fun _ => .error "expected value at line 1 column 1") "")
          = false :=
  ⟨rfl, rfl⟩

/-- C3 amended: `deserialize_comments` is a pure function of its input that
returns the parsed value when the serde parse succeeds but panics when it
fails; inside ViewC's data pipeline a parse failure is treated identically
to a fetch failure only in that both panic — neither is surfaced as a
DeferredValue error value. -/
theorem c3_amended_parse_failure_panics (from_str : FromStr) (s e : String)
    (h : from_str s = .error e) :
    deserialize_comments from_str s = .panicked e
      ∧ viewCFutureOutcome (.body s) from_str = .panicked e
      ∧ viewCFutureOutcome (.sendError e) from_str = .panicked e
      ∧ RunOutcome.isFailed (RunOutcome.panicked e : RunOutcome (List Comment)) = false := by
  refine ⟨?_, ?_, rfl, rfl⟩ <;>
    simp [deserialize_comments, viewCFutureOutcome, textOutcome, h]

/-- Witness for the amended C3 at a concrete failing parse. -/
theorem c3_amended_witness :
    ((fun _ => Except.error "bad json" : FromStr) "" = Except.error "bad json")
      ∧ (deserialize_comments (fun _ => Except.error "bad json") "" = .panicked "bad json"
        ∧ viewCFutureOutcome (.body "") (fun _ => Except.error "bad json")
            = .panicked "bad json"
        ∧ viewCFutureOutcome (.sendError "bad json") (fun _ => Except.error "bad json")
            = .panicked "bad json"
        ∧ RunOutcome.isFailed
            (RunOutcome.panicked "bad json" : RunOutcome (List Comment)) = false) :=
  ⟨rfl, c3_amended_parse_failure_panics (fun _ => Except.error "bad json") "" "bad json" rfl⟩

/-- C5: resolving "/b" produces the chain `[ViewB, ViewBChild]`; ViewBChild's
Suspense region shows the fallback "Loading..." while its fetched-text
deferred value is pending, and once the fetch resolves (to the body `b` of
the HTTP response) the fallback is replaced by that text inside `<pre>`. -/
theorem c5_resolve_b_child_render (http : HttpEnv) (b : String)
    (h : http todosUrl = HttpOutcome.body b) :
    resolve appRoutes ["b"] = some [RouteId.viewB, RouteId.viewBChild]
      ∧ ViewBChild_body .pending
          = .fragment [.elem "p" [.text "Nested Child"], .text "Loading..."]
      ∧ viewBChildFuture http = .ok b
      ∧ ViewBChild_body (.resolved (viewBChildFuture http))
          = .fragment [.elem "p" [.text "Nested Child"], .elem "pre" [.text b]] := by
  refine ⟨by decide, rfl, ?_, ?_⟩ <;>
    simp [viewBChildFuture, httpGetText, textOutcome, h, ViewBChild_body,
      Deferred.map, RunOutcome.map, renderSuspense]

/-- Witness for C5 at a concrete successful fetch. -/
theorem c5_witness :
    ((fun _ => HttpOutcome.body "hello" : HttpEnv) todosUrl = HttpOutcome.body "hello")
      ∧ (resolve appRoutes ["b"] = some [RouteId.viewB, RouteId.viewBChild]
        ∧ ViewBChild_body .pending
            = .fragment [.elem "p" [.text "Nested Child"], .text "Loading..."]
        ∧ viewBChildFuture (fun _ => HttpOutcome.body "hello") = .ok "hello"
        ∧ ViewBChild_body (.resolved (viewBChildFuture (fun _ => HttpOutcome.body "hello")))
            = .fragment [.elem "p" [.text "Nested Child"], .elem "pre" [.text "hello"]]) :=
  ⟨rfl, c5_resolve_b_child_render (fun _ => HttpOutcome.body "hello") "hello" rfl⟩

/-- C6: resolving "/c" produces the chain `[ViewC]`; its data pipeline fetches
the JSON text and parses it with the lazily loaded deserializer; the
Suspense fallback is shown while the fetch is in flight and also while the
fetch is done but the deserializer module is not yet loaded; once both
complete the render shows the Debug-formatted comment list in `<pre>`. -/
theorem c6_resolve_c_pipeline (from_str : FromStr) (body : String) (cs : List Comment)
    (h : from_str body = .ok cs) :
    resolve appRoutes ["c"] = some [RouteId.viewC]
      ∧ (∀ ms, ViewC_body (viewCDataState .inFlight ms from_str)
          = .fragment [.elem "p" [.text "Nested Child"], .text "Loading..."])
      ∧ (∀ ms, ms ≠ ModuleState.loaded →
          ViewC_body (viewCDataState (.done (.body body)) ms from_str)
            = .fragment [.elem "p" [.text "Nested Child"], .text "Loading..."])
      ∧ ViewC_body (viewCDataState (.done (.body body)) .loaded from_str)
          = .fragment [.elem "p" [.text "Nested Child"],
              .elem "pre" [.text (debugFmtComments cs)]] := by
  refine ⟨by decide, fun ms => rfl, ?_, ?_⟩
  · intro ms hms
    cases ms with
    | loaded => exact absurd rfl hms
    | unloaded => rfl
    | loading => rfl
  · simp [viewCDataState, textOutcome, deserialize_comments, h, ViewC_body,
      Deferred.map, RunOutcome.map, renderSuspense]

/-- Witness for C6 at a concrete successful fetch and parse. -/
theorem c6_witness :
    ((fun _ => Except.ok ([] : List Comment) : FromStr) "[]" = Except.ok ([] : List Comment))
      ∧ (resolve appRoutes ["c"] = some [RouteId.viewC]
        ∧ (∀ ms, ViewC_body (viewCDataState .inFlight ms (fun _ => Except.ok []))
            = .fragment [.elem "p" [.text "Nested Child"], .text "Loading..."])
        ∧ (∀ ms, ms ≠ ModuleState.loaded →
            ViewC_body (viewCDataState (.done (.body "[]")) ms (fun _ => Except.ok []))
              = .fragment [.elem "p" [.text "Nested Child"], .text "Loading..."])
        ∧ ViewC_body (viewCDataState (.done (.body "[]")) .loaded (fun _ => Except.ok []))
            = .fragment [.elem "p" [.text "Nested Child"],
                .elem "pre" [.text (debugFmtComments [])]]) :=
  ⟨rfl, c6_resolve_c_pipeline (fun _ => Except.ok []) "[]" [] rfl⟩

theorem enterIssueEvents_shape {l : List RouteId} {e : NavEvent}
    (he : e ∈ enterIssueEvents l) :
    (∃ m, e = .issueModuleLoad m) ∨ ∃ r, e = .issueData r := by
  induction l with
  | nil => simp [enterIssueEvents] at he
  | cons a as ih =>
    simp only [enterIssueEvents, List.mem_append] at he
    rcases he with h | h
    · cases hm : moduleOf a <;> rw [hm] at h
      · simp at h
      · simp at h
        rcases h with h | h
        · exact Or.inl ⟨_, h⟩
        · exact Or.inr ⟨_, h⟩
    · exact ih h

/-- C1: for every navigation between resolvable paths, the event trace splits
into an issue phase followed by an await phase: every newly entered lazy
route's module load and `data()` call are issued in the first phase, before
any suspension — so the view-module load and the data call start
concurrently, and a parent and child entered together (as for "/b") have
both module loads issued before either is awaited. -/
theorem c1_issues_precede_awaits (oldP newP : List String)
    (oldC newC : List RouteId)
    (_h1 : resolve appRoutes oldP = some oldC)
    (_h2 : resolve appRoutes newP = some newC) :
    ∃ k,
      (∀ e ∈ (navTrace oldC newC).take k, isAwaitEvt e = false)
        ∧ (∀ e ∈ (navTrace oldC newC).drop k, isIssueEvt e = false)
        ∧ (∀ r ∈ newlyEntered oldC newC, ∀ m, moduleOf r = some m →
            NavEvent.issueModuleLoad m ∈ (navTrace oldC newC).take k
              ∧ NavEvent.issueData r ∈ (navTrace oldC newC).take k) := by
  clear _h1 _h2
  refine ⟨((exitedRoutes oldC newC).map NavEvent.exitDispose
    ++ enterIssueEvents (newlyEntered oldC newC)).length, ?_, ?_, ?_⟩ <;>
    rw [show navTrace oldC newC
        = ((exitedRoutes oldC newC).map NavEvent.exitDispose
            ++ enterIssueEvents (newlyEntered oldC newC))
          ++ awaitEvents (newlyEntered oldC newC) by
      simp [navTrace, List.append_assoc]]
  · rw [take_len_append]
    intro e he
    rcases List.mem_append.mp he with h | h
    · rcases List.mem_map.mp h with ⟨r, _, rfl⟩
      rfl
    · exact enterIssueEvents_no_await h
  · rw [drop_len_append]
    intro e he
    exact awaitEvents_no_issue he
  · rw [take_len_append]
    intro r hr m hm
    have h2 := mem_enterIssueEvents_of_entered hr hm
    exact ⟨List.mem_append_right _ h2.1, List.mem_append_right _ h2.2⟩

/-- Witness for C1 at the navigation from "/" to "/b": the chains resolve,
ViewB and ViewBChild are newly entered, and their loads and data calls are
issued before any await. -/
theorem c1_witness :
    (resolve appRoutes [] = some [RouteId.viewA])
      ∧ (resolve appRoutes ["b"] = some [RouteId.viewB, RouteId.viewBChild])
      ∧ ∃ k,
        (∀ e ∈ (navTrace [RouteId.viewA] [RouteId.viewB, RouteId.viewBChild]).take k,
            isAwaitEvt e = false)
          ∧ (∀ e ∈ (navTrace [RouteId.viewA] [RouteId.viewB, RouteId.viewBChild]).drop k,
              isIssueEvt e = false)
          ∧ (∀ r ∈ newlyEntered [RouteId.viewA] [RouteId.viewB, RouteId.viewBChild],
              ∀ m, moduleOf r = some m →
              NavEvent.issueModuleLoad m
                  ∈ (navTrace [RouteId.viewA] [RouteId.viewB, RouteId.viewBChild]).take k
                ∧ NavEvent.issueData r
                  ∈ (navTrace [RouteId.viewA] [RouteId.viewB, RouteId.viewBChild]).take k) :=
  ⟨by decide, by decide,
    c1_issues_precede_awaits [] ["b"] [RouteId.viewA] [RouteId.viewB, RouteId.viewBChild]
      (by decide) (by decide)⟩

/-- C8: for every navigation, the segments in the shared prefix of the old
and new chains keep their state untouched (same RouteData generation, same
module-load count, byte-for-byte the same entries), the resulting state
tracks exactly the new chain, and the trace issues `data()` calls and
module loads only for newly entered routes and disposals only for exited
routes — only the segments that changed are torn down and rebuilt. -/
theorem c8_shared_prefix_untouched (old : List SegState) (newC : List RouteId) (g : Nat) :
    (navigateState old newC g).take (commonPrefixLen (old.map SegState.route) newC)
        = old.take (commonPrefixLen (old.map SegState.route) newC)
      ∧ (navigateState old newC g).map SegState.route = newC
      ∧ (∀ r, NavEvent.issueData r ∈ navTrace (old.map SegState.route) newC →
            r ∈ newlyEntered (old.map SegState.route) newC)
      ∧ (∀ m, NavEvent.issueModuleLoad m ∈ navTrace (old.map SegState.route) newC →
            ∃ r, r ∈ newlyEntered (old.map SegState.route) newC ∧ moduleOf r = some m)
      ∧ (∀ r, NavEvent.exitDispose r ∈ navTrace (old.map SegState.route) newC →
            r ∈ exitedRoutes (old.map SegState.route) newC) := by
  have hk : commonPrefixLen (old.map SegState.route) newC ≤ old.length := by
    simpa using commonPrefixLen_le_left (old.map SegState.route) newC
  have hlen : (old.take (commonPrefixLen (old.map SegState.route) newC)).length
      = commonPrefixLen (old.map SegState.route) newC := by
    simp [Nat.min_eq_left hk]
  have htake : ∀ (l₁ l₂ : List SegState) (n : Nat), l₁.length = n → (l₁ ++ l₂).take n = l₁ := by
    intro l₁ l₂ n h
    subst h
    exact take_len_append _ _
  refine ⟨?_, ?_, ?_, ?_, ?_⟩
  · simp only [navigateState]
    exact htake _ _ _ hlen
  · simp only [navigateState]
    rw [List.map_append, List.map_map]
    have h2 : (old.take (commonPrefixLen (old.map SegState.route) newC)).map SegState.route
        = newC.take (commonPrefixLen (old.map SegState.route) newC) := by
      rw [List.map_take, take_commonPrefix_eq (old.map SegState.route) newC]
    rw [h2]
    have h3 : ((newC.drop (commonPrefixLen (old.map SegState.route) newC)).map
        (SegState.route ∘ fun r => ⟨r, g, 1⟩))
        = newC.drop (commonPrefixLen (old.map SegState.route) newC) := by
      have h4 : (SegState.route ∘ fun r : RouteId => (⟨r, g, 1⟩ : SegState))
          = fun r => r := rfl
      rw [h4]
      simp
    rw [h3, List.take_append_drop]
  · intro r h
    simp only [navTrace, List.append_assoc, List.mem_append] at h
    rcases h with h | h | h
    · rcases List.mem_map.mp h with ⟨r2, _, he⟩
      cases he
    · exact issueData_mem_enterIssueEvents h
    · rcases List.mem_map.mp h with ⟨r2, _, he⟩
      cases he
  · intro m h
    simp only [navTrace, List.append_assoc, List.mem_append] at h
    rcases h with h | h | h
    · rcases List.mem_map.mp h with ⟨r2, _, he⟩
      cases he
    · exact issueLoad_mem_enterIssueEvents h
    · rcases List.mem_map.mp h with ⟨r2, _, he⟩
      cases he
  · intro r h
    simp only [navTrace, List.append_assoc, List.mem_append] at h
    rcases h with h | h | h
    · rcases List.mem_map.mp h with ⟨r2, hr2, he⟩
      cases he
      exact hr2
    · rcases enterIssueEvents_shape h with ⟨m, he⟩ | ⟨r2, he⟩ <;> cases he
    · rcases List.mem_map.mp h with ⟨r2, _, he⟩
      cases he

/-- C10 counterexample: registration order does not decide the match for "/":
the ViewB `ParentRoute` at the empty segment matches nothing at "/" (its
only child requires the segment "b"), so even with it registered first the
resolution of "/" is still `[ViewA]`. -/
theorem c10_cex_order_does_not_decide :
    matchTop parentBRoute [] = none
      ∧ resolve appRoutesSwapped [] = some [RouteId.viewA]
      ∧ resolve appRoutes [] = some [RouteId.viewA] :=
  ⟨by decide, by decide, by decide⟩

/-- C10 amended: two distinct route registrations share the same empty static
path segment (the eager ViewA `Route` and the lazy ViewB `ParentRoute`);
resolving "/" yields ViewA alone — independently of registration order,
because the `ParentRoute` cannot match "/" (its only child requires the
segment "b") — and the ViewB parent appears in a resolved chain only for
the path "/b", as `[ViewB, ViewBChild]`. -/
theorem c10_amended_shared_empty_segment (p : List String) (chain : List RouteId)
    (h1 : resolve appRoutes p = some chain) (h2 : RouteId.viewB ∈ chain) :
    topSegs viewARoute = [Seg.staticSeg ""]
      ∧ topSegs parentBRoute = [Seg.staticSeg ""]
      ∧ viewARoute ≠ parentBRoute
      ∧ resolve appRoutes [] = some [RouteId.viewA]
      ∧ resolve appRoutesSwapped [] = some [RouteId.viewA]
      ∧ matchTop parentBRoute [] = none
      ∧ p = ["b"] ∧ chain = [RouteId.viewB, RouteId.viewBChild] := by
  have hres := resolve_appRoutes_eq p
  rw [h1] at hres
  have hp : p = ["b"] ∧ chain = [RouteId.viewB, RouteId.viewBChild] := by
    split_ifs at hres with hp1 hp2 hp3
    · injection hres with hc
      subst hc
      simp at h2
    · injection hres with hc
      exact ⟨hp2, hc⟩
    · injection hres with hc
      subst hc
      simp at h2
  exact ⟨rfl, rfl, by decide, by decide, by decide, by decide, hp.1, hp.2⟩

/-- Witness for the amended C10 at the path "/b". -/
theorem c10_witness :
    (resolve appRoutes ["b"] = some [RouteId.viewB, RouteId.viewBChild])
      ∧ (RouteId.viewB ∈ [RouteId.viewB, RouteId.viewBChild])
      ∧ (topSegs viewARoute = [Seg.staticSeg ""]
        ∧ topSegs parentBRoute = [Seg.staticSeg ""]
        ∧ viewARoute ≠ parentBRoute
        ∧ resolve appRoutes [] = some [RouteId.viewA]
        ∧ resolve appRoutesSwapped [] = some [RouteId.viewA]
        ∧ matchTop parentBRoute [] = none
        ∧ ["b"] = ["b"] ∧ [RouteId.viewB, RouteId.viewBChild]
            = [RouteId.viewB, RouteId.viewBChild]) :=
  ⟨by decide, by decide,
    c10_amended_shared_empty_segment ["b"] [RouteId.viewB, RouteId.viewBChild]
      (by decide) (by decide)⟩

end WasmSplitExample
